import Mathlib

/-!
Shallow embedding of the JanScribe backend (`src/backend/main.py`).

The backend is a single FastAPI endpoint `process_audio` that
0. extracts the bearer credential from the Authorization header through the
   `HTTPBearer()` dependency (`bearer_scheme` in the source, line 36), which
   rejects a missing or non-Bearer header with a 403 before anything runs,
1. authenticates the extracted bearer token against Supabase
   (`get_user_from_token`),
2. sends the uploaded audio to Gemini for transcription,
3. validates the transcript (at least two whitespace tokens),
4. sends the transcript to Gemini for summarization,
5. inserts a record into the `summaries` table, and
6. returns `{"structured_summary": ...}`.

External collaborators (Supabase auth, the two Gemini calls, the table
insert, the `mimetypes.guess_type` table) are modelled as fields of a
`RequestEnv` describing the outcome each external call would produce;
the handler logic itself is translated line by line from the source.
Side effects (number of Gemini calls, insert attempts, inserted rows,
the audio part handed to Gemini) are tracked explicitly in the
`Outcome` record.
-/

namespace JanScribe

/-- An HTTP-shaped error: status code plus detail string, mirroring
FastAPI's `HTTPException(status_code=..., detail=...)`. -/
structure HTTPError where
  status : Nat
  detail : String
deriving DecidableEq

/-- A Python exception that is not an `HTTPException`.  `detailAttr` models an
optional `detail` attribute (read by `getattr(e, 'detail', str(e))` in the
top-level handler); `message` models `str(e)`. -/
structure PyError where
  detailAttr : Option String
  message : String
deriving DecidableEq

/-- What happens when the handler reads `response.text` on a Gemini response:
the attribute yields a string, raises `ValueError` (segmented or blocked
output), or raises some other exception. -/
inductive TextAccess where
  | ok (t : String)
  | valueError
  | otherRaised (msg : String)
deriving DecidableEq

/-- A Gemini response as observed by the handler: the behaviour of its `text`
attribute, and `candidates`, each candidate being the list of texts of its
`content.parts`. -/
structure GeminiResponse where
  textField : TextAccess
  candidates : List (List String)
deriving DecidableEq

/-- An exception flowing through the handler body: either a FastAPI
`HTTPException` or any other Python exception. -/
inductive Exc where
  | http (e : HTTPError)
  | py (e : PyError)
deriving DecidableEq

/-- Outcome of `supabase.auth.get_user(token)`: a user object with an id, a
response whose `user` field is `None`, or the call raised. -/
inductive AuthOutcome where
  | user (uid : String)
  | noUser
  | raised (msg : String)
deriving DecidableEq

/-- Outcome of a `gemini_model.generate_content(...)` call: the call raised,
or it returned a response object. -/
inductive CallResult where
  | raised (e : PyError)
  | returned (r : GeminiResponse)
deriving DecidableEq

/-- One request to `POST /process-audio/` together with the outcome each
external collaborator would produce for it.  `authorization` is the raw
Authorization header (absent when the client sent none); `auth` is the
outcome `supabase.auth.get_user` would produce for the extracted
credential. -/
structure RequestEnv where
  authorization : Option String
  auth : AuthOutcome
  content_type : Option String
  filename : Option String
  client_name : Option String
  audio_data : List Nat
  guess_type : String → Option String
  transcribeCall : CallResult
  summarizeCall : CallResult
  insertOutcome : Except PyError Unit

/-- The record inserted into the `summaries` table (`db_data` in the source). -/
structure DbRecord where
  user_id : String
  original_transcript : String
  structured_summary : String
  client_name : Option String
deriving DecidableEq

/-- The `audio_part` dictionary handed to Gemini in the transcription call. -/
structure AudioPart where
  mime_type : String
  data : List Nat
deriving DecidableEq

/-- Result of one request: the HTTP response (success body is the
`structured_summary` string) plus the observable side effects. -/
structure Outcome where
  response : Except HTTPError String
  aiCalls : Nat
  insertAttempts : Nat
  inserts : List DbRecord
  audioPart : Option AudioPart

/-- Python truthiness-based `x or d` on an optional string: `None` and the
empty string fall through to the default. -/
def pyOr (o : Option String) (d : String) : String :=
  match o with
  | some s => if s = "" then d else s
  | none => d

/-- Characters Python's `str.split()` (no argument) splits on. -/
def pyIsSpace (c : Char) : Bool :=
  c = ' ' || c = '\t' || c = '\n' || c = '\r' || c = '\x0b' || c = '\x0c'

/-- Python's `s.split()`: split on whitespace runs, discarding empty pieces. -/
def pySplitWhitespace (s : String) : List String :=
  ((s.data.splitOnP pyIsSpace).filter (fun l => l ≠ [])).map String.mk

/-- The guess branch of mime resolution:
`mimetypes.guess_type(file.filename or 'audio.webm')[0] or 'application/octet-stream'`. -/
def guessed_mime_type (guess : String → Option String) (filename : Option String) : String :=
  pyOr (guess (pyOr filename "audio.webm")) "application/octet-stream"

/-- `mime_type = file.content_type; if not mime_type: mime_type = ...`
(lines 65-68 of the source). -/
def resolve_mime_type (guess : String → Option String)
    (content_type filename : Option String) : String :=
  match content_type with
  | some c => if c = "" then guessed_mime_type guess filename else c
  | none => guessed_mime_type guess filename

/-- The text-extraction block the source repeats at lines 87-97 and 127-136:
try `response.text`; on `ValueError`, if `candidates` and
`candidates[0].content.parts` are non-empty, join the part texts, else raise
`HTTPException(500, failDetail)`; on any other exception `e`, raise
`HTTPException(500, wrapDetail + str(e))`. -/
def extract_text (failDetail wrapDetail : String) (r : GeminiResponse) :
    Except Exc String :=
  match r.textField with
  | .ok t => Except.ok t
  | .valueError =>
    match r.candidates with
    | [] => Except.error (Exc.http ⟨500, failDetail⟩)
    | c :: _ =>
      if c = [] then Except.error (Exc.http ⟨500, failDetail⟩)
      else Except.ok (String.join c)
  | .otherRaised m => Except.error (Exc.http ⟨500, wrapDetail ++ m⟩)

/-- Transcription-stage text extraction (source lines 87-97). -/
def extract_transcript (r : GeminiResponse) : Except Exc String :=
  extract_text "Gemini transcription failed or returned an unexpected format."
    "Error extracting transcription: " r

/-- Summarization-stage text extraction (source lines 127-136). -/
def extract_summary (r : GeminiResponse) : Except Exc String :=
  extract_text "Gemini summarization failed or returned an unexpected format."
    "Error extracting summary: " r

/-- Starlette's `HTTPException.__str__`: `f"{self.status_code}: {self.detail}"`. -/
def http_exception_str (status : Nat) (detail : String) : String :=
  toString status ++ ": " ++ detail

/-- Python's `s.partition(" ")` viewed as (before, after): split at the first
space, the second component empty when there is no space. -/
def splitFirstSpace : List Char → List Char × List Char
  | [] => ([], [])
  | c :: cs =>
    if c = ' ' then ([], cs)
    else
      let p := splitFirstSpace cs
      (c :: p.1, p.2)

/-- `fastapi.security.utils.get_authorization_scheme_param`: a falsy header
yields `("", "")`, otherwise the header is partitioned at the first space
into scheme and parameter. -/
def get_authorization_scheme_param (authorization : Option String) :
    String × String :=
  match authorization with
  | none => ("", "")
  | some h =>
    if h = "" then ("", "")
    else
      let p := splitFirstSpace h.data
      (String.mk p.1, String.mk p.2)

/-- Python's `str.lower()` on the ASCII range (all that the scheme
comparison needs). -/
def pyLower (s : String) : String :=
  String.mk (s.data.map Char.toLower)

/-- FastAPI's `HTTPBearer.__call__` with the default `auto_error=True`
(`bearer_scheme = HTTPBearer()`, source line 36): a missing header, or one
from which no scheme or credentials can be extracted, raises
`HTTPException(403, "Not authenticated")`; a scheme other than `bearer`
(case-insensitive) raises `HTTPException(403, "Invalid authentication
credentials")`; otherwise the credentials are returned. -/
def http_bearer (authorization : Option String) : Except HTTPError String :=
  let sp := get_authorization_scheme_param authorization
  if authorization.getD "" = "" ∨ sp.1 = "" ∨ sp.2 = "" then
    Except.error ⟨403, "Not authenticated"⟩
  else if pyLower sp.1 ≠ "bearer" then
    Except.error ⟨403, "Invalid authentication credentials"⟩
  else Except.ok sp.2

/-- `get_user_from_token` (source lines 38-47).  The `HTTPException(401,
"Invalid auth token")` raised when `user_data.user` is falsy is itself an
`Exception`, so it is caught by the function's own `except Exception as e`
clause and re-wrapped as `f"Auth error: {str(e)}"`. -/
def get_user_from_token : AuthOutcome → Except HTTPError String
  | .user uid => Except.ok uid
  | .noUser =>
    Except.error ⟨401, "Auth error: " ++ http_exception_str 401 "Invalid auth token"⟩
  | .raised m => Except.error ⟨401, "Auth error: " ++ m⟩

/-- The detail of the 400 raised for short transcripts (source line 102). -/
def silent_audio_detail : String :=
  "Audio was silent or could not be transcribed reliably by Gemini."

/-- The body of the `try` block of `process_audio` (source lines 59-150),
with the exception (if any) still un-normalized. -/
structure RawOutcome where
  response : Except Exc String
  aiCalls : Nat
  insertAttempts : Nat
  inserts : List DbRecord
  audioPart : Option AudioPart

/-- The `try` block of `process_audio` (source lines 59-150): build the audio
part, call Gemini to transcribe, extract and validate the transcript, call
Gemini to summarize, extract the summary, insert into the store, and return
the summary.  Each branch records the side effects performed so far. -/
def process_audio_try_body (env : RequestEnv) (user_id : String) : RawOutcome :=
  let mime_type := resolve_mime_type env.guess_type env.content_type env.filename
  let audio_part : AudioPart := ⟨mime_type, env.audio_data⟩
  match env.transcribeCall with
  | .raised e => ⟨Except.error (Exc.py e), 1, 0, [], some audio_part⟩
  | .returned tr =>
    match extract_transcript tr with
    | Except.error exc => ⟨Except.error exc, 1, 0, [], some audio_part⟩
    | Except.ok original_transcript =>
      if original_transcript = "" ∨ (pySplitWhitespace original_transcript).length < 2 then
        ⟨Except.error (Exc.http ⟨400, silent_audio_detail⟩), 1, 0, [], some audio_part⟩
      else
        match env.summarizeCall with
        | .raised e => ⟨Except.error (Exc.py e), 2, 0, [], some audio_part⟩
        | .returned sr =>
          match extract_summary sr with
          | Except.error exc => ⟨Except.error exc, 2, 0, [], some audio_part⟩
          | Except.ok structured_summary =>
            let db_data : DbRecord :=
              ⟨user_id, original_transcript, structured_summary, env.client_name⟩
            match env.insertOutcome with
            | Except.error e => ⟨Except.error (Exc.py e), 2, 1, [], some audio_part⟩
            | Except.ok _ =>
              ⟨Except.ok structured_summary, 2, 1, [db_data], some audio_part⟩

/-- The two `except` clauses at the bottom of `process_audio` (source lines
152-158): re-raise `HTTPException` unchanged; wrap any other exception `e`
as `HTTPException(500, f"An error occurred: {getattr(e, 'detail', str(e))}")`. -/
def normalize_exception : Exc → HTTPError
  | .http e => e
  | .py e => ⟨500, "An error occurred: " ++ e.detailAttr.getD e.message⟩

/-- The whole `POST /process-audio/` handler: the `HTTPBearer` transport
dependency runs first (a 403 there means nothing else runs), then the
`get_user_from_token` dependency (a 401 there means the body never runs),
then the `try` block, whose exceptions are normalized by the trailing
`except` clauses. -/
def process_audio (env : RequestEnv) : Outcome :=
  match http_bearer env.authorization with
  | Except.error e => ⟨Except.error e, 0, 0, [], none⟩
  | Except.ok _ =>
    match get_user_from_token env.auth with
    | Except.error e => ⟨Except.error e, 0, 0, [], none⟩
    | Except.ok user_id =>
      let raw := process_audio_try_body env user_id
      ⟨raw.response.mapError normalize_exception, raw.aiCalls, raw.insertAttempts,
        raw.inserts, raw.audioPart⟩

/-- A guess table that recognizes nothing (used in concrete witnesses). -/
def guessNone : String → Option String := fun _ => none

/-- Concrete request whose summarization stage succeeds with the empty string:
valid token, two-token transcript, insert succeeds. -/
def envEmptySummary : RequestEnv where
  authorization := some "Bearer tok-1"
  auth := .user "user-1"
  content_type := some "audio/webm"
  filename := none
  client_name := none
  audio_data := [1, 2, 3]
  guess_type := guessNone
  transcribeCall := .returned ⟨.ok "hello world", []⟩
  summarizeCall := .returned ⟨.ok "", []⟩
  insertOutcome := .ok ()

/-- Concrete fully-successful request with a non-empty summary. -/
def envSuccess : RequestEnv where
  authorization := some "Bearer tok-1"
  auth := .user "user-1"
  content_type := some "audio/webm"
  filename := none
  client_name := some "Acme"
  audio_data := [1, 2, 3]
  guess_type := guessNone
  transcribeCall := .returned ⟨.ok "hello there world", []⟩
  summarizeCall := .returned ⟨.ok "CHIEF COMPLAINT: headache", []⟩
  insertOutcome := .ok ()

/-- Concrete request whose transcript has a single token. -/
def envShortTranscript : RequestEnv where
  authorization := some "Bearer tok-1"
  auth := .user "user-1"
  content_type := some "audio/webm"
  filename := none
  client_name := none
  audio_data := [1]
  guess_type := guessNone
  transcribeCall := .returned ⟨.ok "hi", []⟩
  summarizeCall := .returned ⟨.ok "SUMMARY", []⟩
  insertOutcome := .ok ()

/-- Concrete request whose insert raises after both Gemini calls succeed. -/
def envInsertFails : RequestEnv where
  authorization := some "Bearer tok-1"
  auth := .user "user-1"
  content_type := some "audio/webm"
  filename := none
  client_name := none
  audio_data := [1]
  guess_type := guessNone
  transcribeCall := .returned ⟨.ok "hello world", []⟩
  summarizeCall := .returned ⟨.ok "CHIEF COMPLAINT: headache", []⟩
  insertOutcome := .error ⟨none, "connection refused"⟩

/-- Concrete request whose transcription call itself raises. -/
def envCallRaises : RequestEnv where
  authorization := some "Bearer tok-1"
  auth := .user "user-1"
  content_type := some "audio/webm"
  filename := none
  client_name := none
  audio_data := [1]
  guess_type := guessNone
  transcribeCall := .raised ⟨none, "boom"⟩
  summarizeCall := .returned ⟨.ok "SUMMARY", []⟩
  insertOutcome := .ok ()

/-- Concrete request with an invalid token. -/
def envBadToken : RequestEnv where
  authorization := some "Bearer tok-1"
  auth := .noUser
  content_type := some "audio/webm"
  filename := none
  client_name := none
  audio_data := [1]
  guess_type := guessNone
  transcribeCall := .returned ⟨.ok "hello world", []⟩
  summarizeCall := .returned ⟨.ok "SUMMARY", []⟩
  insertOutcome := .ok ()

/-- Concrete request with a declared content type, used for mime witnesses. -/
def envMimeDeclared : RequestEnv where
  authorization := some "Bearer tok-1"
  auth := .user "user-1"
  content_type := some "audio/mpeg"
  filename := some "note.bin"
  client_name := none
  audio_data := [7]
  guess_type := guessNone
  transcribeCall := .returned ⟨.ok "hello world", []⟩
  summarizeCall := .returned ⟨.ok "SUMMARY", []⟩
  insertOutcome := .ok ()

/-- A guess table recognizing only `voice.mp3` (used in mime witnesses). -/
def guessMp3 : String → Option String :=
  fun f => if f = "voice.mp3" then some "audio/mpeg" else none

/-- Concrete request with no declared content type and a recognized filename. -/
def envMimeGuessed : RequestEnv where
  authorization := some "Bearer tok-1"
  auth := .user "user-1"
  content_type := none
  filename := some "voice.mp3"
  client_name := none
  audio_data := [7]
  guess_type := guessMp3
  transcribeCall := .returned ⟨.ok "hello world", []⟩
  summarizeCall := .returned ⟨.ok "SUMMARY", []⟩
  insertOutcome := .ok ()

/-- Concrete request with no declared content type and an unrecognized
filename. -/
def envMimeFallback : RequestEnv where
  authorization := some "Bearer tok-1"
  auth := .user "user-1"
  content_type := none
  filename := some "voice.xyz"
  client_name := none
  audio_data := [7]
  guess_type := guessMp3
  transcribeCall := .returned ⟨.ok "hello world", []⟩
  summarizeCall := .returned ⟨.ok "SUMMARY", []⟩
  insertOutcome := .ok ()

/-- Concrete request that sends no Authorization header at all. -/
def envNoHeader : RequestEnv where
  authorization := none
  auth := .user "user-1"
  content_type := some "audio/webm"
  filename := none
  client_name := none
  audio_data := [1]
  guess_type := guessNone
  transcribeCall := .returned ⟨.ok "hello world", []⟩
  summarizeCall := .returned ⟨.ok "SUMMARY", []⟩
  insertOutcome := .ok ()

/-- A guess table with the stock CPython entry for `.webm`
(`mimetypes.guess_type('audio.webm')` returns `('video/webm', None)`). -/
def guessWebm : String → Option String :=
  fun f => if f = "audio.webm" then some "video/webm" else none

/-- Concrete upload with no declared content type and no filename: the code
substitutes the default name `audio.webm` before guessing. -/
def envMimeNoFilename : RequestEnv where
  authorization := some "Bearer tok-1"
  auth := .user "user-1"
  content_type := none
  filename := none
  client_name := none
  audio_data := [7]
  guess_type := guessWebm
  transcribeCall := .returned ⟨.ok "hello world", []⟩
  summarizeCall := .returned ⟨.ok "SUMMARY", []⟩
  insertOutcome := .ok ()

/-! ## Helper lemmas -/

/-- When the bearer gate extracts a credential and authentication succeeds,
the handler's outcome is the try body's outcome with its exception (if any)
normalized. -/
lemma process_audio_auth_user (env : RequestEnv) (uid cred : String)
    (hb : http_bearer env.authorization = Except.ok cred)
    (hauth : env.auth = AuthOutcome.user uid) :
    process_audio env =
      ⟨(process_audio_try_body env uid).response.mapError normalize_exception,
        (process_audio_try_body env uid).aiCalls,
        (process_audio_try_body env uid).insertAttempts,
        (process_audio_try_body env uid).inserts,
        (process_audio_try_body env uid).audioPart⟩ := by
  unfold process_audio
  rw [hb, hauth]
  rfl

/-- Every rejection of the `HTTPBearer` dependency carries status 403. -/
lemma http_bearer_error_403 (authorization : Option String) (e : HTTPError)
    (he : http_bearer authorization = Except.error e) : e.status = 403 := by
  unfold http_bearer at he
  dsimp only at he
  split at he
  · cases he
    rfl
  · split at he
    · cases he
      rfl
    · exact Except.noConfusion he

/-- A bearer-gate rejection short-circuits the whole handler. -/
lemma process_audio_bearer_error (env : RequestEnv) (e : HTTPError)
    (he : http_bearer env.authorization = Except.error e) :
    process_audio env = ⟨Except.error e, 0, 0, [], none⟩ := by
  unfold process_audio
  rw [he]

/-- On every path through the try body the audio part sent to Gemini carries
the resolved mime type. -/
lemma try_body_audioPart (env : RequestEnv) (uid : String) :
    (process_audio_try_body env uid).audioPart =
      some ⟨resolve_mime_type env.guess_type env.content_type env.filename,
        env.audio_data⟩ := by
  unfold process_audio_try_body
  repeat' split
  all_goals rfl

/-- A transcript passing the two-token check is non-empty. -/
lemma ne_empty_of_two_tokens {t : String} (h : 2 ≤ (pySplitWhitespace t).length) :
    t ≠ "" := by
  intro he
  subst he
  exact absurd h (by decide)

/-- The short-transcript condition is false for transcripts passing the check. -/
lemma not_short_of_two_tokens {t : String} (h : 2 ≤ (pySplitWhitespace t).length) :
    ¬ (t = "" ∨ (pySplitWhitespace t).length < 2) := by
  rintro (he | hl)
  · exact ne_empty_of_two_tokens h he
  · exact absurd h (Nat.not_le.mpr hl)

/-- The try body on the all-success path. -/
lemma try_body_success (env : RequestEnv) (uid : String) (tr sr : GeminiResponse)
    (t s : String)
    (htr : env.transcribeCall = CallResult.returned tr)
    (hts : extract_transcript tr = Except.ok t)
    (hlen : 2 ≤ (pySplitWhitespace t).length)
    (hsum : env.summarizeCall = CallResult.returned sr)
    (hss : extract_summary sr = Except.ok s)
    (hins : env.insertOutcome = Except.ok ()) :
    process_audio_try_body env uid =
      ⟨Except.ok s, 2, 1, [⟨uid, t, s, env.client_name⟩],
        some ⟨resolve_mime_type env.guess_type env.content_type env.filename,
          env.audio_data⟩⟩ := by
  simp only [process_audio_try_body, htr, hts, hsum, hss, hins,
    if_neg (not_short_of_two_tokens hlen)]

/-- The try body on the short-transcript path. -/
lemma try_body_short (env : RequestEnv) (uid : String) (tr : GeminiResponse)
    (t : String)
    (htr : env.transcribeCall = CallResult.returned tr)
    (hts : extract_transcript tr = Except.ok t)
    (hshort : t = "" ∨ (pySplitWhitespace t).length < 2) :
    process_audio_try_body env uid =
      ⟨Except.error (Exc.http ⟨400, silent_audio_detail⟩), 1, 0, [],
        some ⟨resolve_mime_type env.guess_type env.content_type env.filename,
          env.audio_data⟩⟩ := by
  simp only [process_audio_try_body, htr, hts, if_pos hshort]

/-- The try body on the insert-failure path. -/
lemma try_body_insert_fails (env : RequestEnv) (uid : String)
    (tr sr : GeminiResponse) (t s : String) (e : PyError)
    (htr : env.transcribeCall = CallResult.returned tr)
    (hts : extract_transcript tr = Except.ok t)
    (hlen : 2 ≤ (pySplitWhitespace t).length)
    (hsum : env.summarizeCall = CallResult.returned sr)
    (hss : extract_summary sr = Except.ok s)
    (hins : env.insertOutcome = Except.error e) :
    process_audio_try_body env uid =
      ⟨Except.error (Exc.py e), 2, 1, [],
        some ⟨resolve_mime_type env.guess_type env.content_type env.filename,
          env.audio_data⟩⟩ := by
  simp only [process_audio_try_body, htr, hts, hsum, hss, hins,
    if_neg (not_short_of_two_tokens hlen)]

/-- A string of the wrapped auth-error form is never the bare message. -/
lemma wrapped_ne_bare (m : String) :
    "Auth error: " ++ m ≠ "Invalid auth token" := by
  intro h
  have hd : ("Auth error: " ++ m).data = "Invalid auth token".data := by rw [h]
  rw [String.data_append] at hd
  have h12 : ("Auth error: ".data ++ m.data).take 12 = "Auth error: ".data :=
    List.take_left "Auth error: ".data m.data
  rw [hd] at h12
  exact absurd h12 (by decide)

/-- When authentication succeeds, the audio part sent to Gemini carries the
resolved mime type and the uploaded bytes. -/
lemma process_audio_audioPart (env : RequestEnv) (uid cred : String)
    (hb : http_bearer env.authorization = Except.ok cred)
    (hauth : env.auth = AuthOutcome.user uid) :
    (process_audio env).audioPart =
      some ⟨resolve_mime_type env.guess_type env.content_type env.filename,
        env.audio_data⟩ := by
  rw [process_audio_auth_user env uid cred hb hauth]
  exact try_body_audioPart env uid

/-! ## Claim theorems -/

/-- C1: in both stages, when reading the direct `text` field raises
`ValueError`, the extracted text equals the concatenation of the first
candidate's fragment texts in order when such fragments exist, and the stage
fails with a 500 error when the response exposes neither a direct text field
nor any fragments. -/
theorem C1_fragment_concatenation_or_500 (r : GeminiResponse)
    (hval : r.textField = TextAccess.valueError) :
    (∀ c cs, r.candidates = c :: cs → c ≠ [] →
      extract_transcript r = Except.ok (String.join c) ∧
      extract_summary r = Except.ok (String.join c)) ∧
    ((r.candidates = [] ∨ ∃ cs, r.candidates = [] :: cs) →
      extract_transcript r = Except.error (Exc.http ⟨500,
        "Gemini transcription failed or returned an unexpected format."⟩) ∧
      extract_summary r = Except.error (Exc.http ⟨500,
        "Gemini summarization failed or returned an unexpected format."⟩)) := by
  constructor
  · intro c cs hc hne
    constructor <;> simp [extract_transcript, extract_summary, extract_text, hval, hc, hne]
  · rintro (hnil | ⟨cs, hc⟩) <;>
      constructor <;>
        simp_all [extract_transcript, extract_summary, extract_text]

/-- Witness for C1 at two concrete responses: fragments are joined in order,
and a fragment-free degenerate response yields the 500 error. -/
theorem C1_witness :
    extract_transcript ⟨TextAccess.valueError, [["foo", "bar"]]⟩ =
      Except.ok (String.join ["foo", "bar"]) ∧
    extract_summary ⟨TextAccess.valueError, []⟩ = Except.error (Exc.http ⟨500,
      "Gemini summarization failed or returned an unexpected format."⟩) :=
  ⟨((C1_fragment_concatenation_or_500 ⟨TextAccess.valueError, [["foo", "bar"]]⟩ rfl).1
      ["foo", "bar"] [] rfl (by decide)).1,
    ((C1_fragment_concatenation_or_500 ⟨TextAccess.valueError, []⟩ rfl).2 (Or.inl rfl)).2⟩

/-- C2: when the extracted transcript is empty or has fewer than two
whitespace-delimited tokens, the response is the 400 silent-audio error and
the persistence insert is never attempted. -/
theorem C2_short_transcript_400_no_insert (env : RequestEnv)
    (uid cred t : String) (tr : GeminiResponse)
    (hb : http_bearer env.authorization = Except.ok cred)
    (hauth : env.auth = AuthOutcome.user uid)
    (htr : env.transcribeCall = CallResult.returned tr)
    (hts : extract_transcript tr = Except.ok t)
    (hshort : t = "" ∨ (pySplitWhitespace t).length < 2) :
    (process_audio env).response = Except.error ⟨400, silent_audio_detail⟩ ∧
    (process_audio env).insertAttempts = 0 ∧
    (process_audio env).inserts = [] := by
  rw [process_audio_auth_user env uid cred hb hauth,
    try_body_short env uid tr t htr hts hshort]
  exact ⟨rfl, rfl, rfl⟩

/-- Witness for C2 at a request transcribed as the single token `hi`. -/
theorem C2_witness :
    (process_audio envShortTranscript).response =
      Except.error ⟨400, silent_audio_detail⟩ ∧
    (process_audio envShortTranscript).insertAttempts = 0 ∧
    (process_audio envShortTranscript).inserts = [] :=
  C2_short_transcript_400_no_insert envShortTranscript "user-1" "tok-1" "hi"
    ⟨.ok "hi", []⟩ rfl rfl rfl rfl (Or.inr (by decide))

/-- C3: when transcription and summarization succeed but the insert raises,
the response is the wrapped 500 error, no success body (hence no summary) is
returned, and no record is stored. -/
theorem C3_persistence_failure_atomic (env : RequestEnv)
    (uid cred t s : String) (tr sr : GeminiResponse) (e : PyError)
    (hb : http_bearer env.authorization = Except.ok cred)
    (hauth : env.auth = AuthOutcome.user uid)
    (htr : env.transcribeCall = CallResult.returned tr)
    (hts : extract_transcript tr = Except.ok t)
    (hlen : 2 ≤ (pySplitWhitespace t).length)
    (hsum : env.summarizeCall = CallResult.returned sr)
    (hss : extract_summary sr = Except.ok s)
    (hins : env.insertOutcome = Except.error e) :
    (process_audio env).response =
      Except.error ⟨500, "An error occurred: " ++ e.detailAttr.getD e.message⟩ ∧
    (∀ b, (process_audio env).response ≠ Except.ok b) ∧
    (process_audio env).inserts = [] := by
  rw [process_audio_auth_user env uid cred hb hauth,
    try_body_insert_fails env uid tr sr t s e htr hts hlen hsum hss hins]
  refine ⟨rfl, ?_, rfl⟩
  intro b hbody
  exact Except.noConfusion hbody

/-- Witness for C3 at a request whose insert raises `connection refused`. -/
theorem C3_witness :
    (process_audio envInsertFails).response =
      Except.error ⟨500, "An error occurred: connection refused"⟩ ∧
    (∀ b, (process_audio envInsertFails).response ≠ Except.ok b) ∧
    (process_audio envInsertFails).inserts = [] :=
  C3_persistence_failure_atomic envInsertFails "user-1" "tok-1" "hello world"
    "CHIEF COMPLAINT: headache" ⟨.ok "hello world", []⟩
    ⟨.ok "CHIEF COMPLAINT: headache", []⟩ ⟨none, "connection refused"⟩
    rfl rfl rfl rfl (by decide) rfl rfl rfl

/-- C4 counterexample: a request with no Authorization header is rejected by
the `HTTPBearer()` dependency with status 403 (`Not authenticated`), not the
401 the claim asserts for every missing token. -/
theorem C4_counterexample :
    (process_audio envNoHeader).response =
      Except.error ⟨403, "Not authenticated"⟩ ∧
    ¬ ∃ d, (process_audio envNoHeader).response = Except.error ⟨401, d⟩ := by
  refine ⟨rfl, ?_⟩
  rintro ⟨d, hd⟩
  have h : (Except.error ⟨403, "Not authenticated"⟩ : Except HTTPError String) =
      Except.error ⟨401, d⟩ := hd
  have h2 : (403 : Nat) = 401 := congrArg HTTPError.status (Except.error.inj h)
  exact absurd h2 (by decide)

/-- C4 (amended): a request presenting an extractable bearer credential whose
identity check fails (no user, or the identity-service call errors) gets a
401 with no Gemini call and no insert; a request whose bearer token is
missing or not extractable is rejected by the `HTTPBearer` dependency with a
403 before the identity service is consulted, likewise with no Gemini call
and no insert. -/
theorem C4_auth_failure_401_or_403 (env : RequestEnv) :
    ((∃ cred, http_bearer env.authorization = Except.ok cred) →
      (∀ uid, env.auth ≠ AuthOutcome.user uid) →
      (∃ d, (process_audio env).response = Except.error ⟨401, d⟩) ∧
      (process_audio env).aiCalls = 0 ∧
      (process_audio env).insertAttempts = 0 ∧
      (process_audio env).inserts = []) ∧
    (∀ e, http_bearer env.authorization = Except.error e →
      (process_audio env).response = Except.error e ∧ e.status = 403 ∧
      (process_audio env).aiCalls = 0 ∧
      (process_audio env).insertAttempts = 0 ∧
      (process_audio env).inserts = []) := by
  constructor
  · rintro ⟨cred, hb⟩ h
    cases ha : env.auth with
    | user uid => exact absurd ha (h uid)
    | noUser =>
      refine ⟨⟨"Auth error: " ++ http_exception_str 401 "Invalid auth token",
        ?_⟩, ?_, ?_, ?_⟩ <;>
          simp [process_audio, get_user_from_token, hb, ha]
    | raised m =>
      refine ⟨⟨"Auth error: " ++ m, ?_⟩, ?_, ?_, ?_⟩ <;>
        simp [process_audio, get_user_from_token, hb, ha]
  · intro e he
    rw [process_audio_bearer_error env e he]
    exact ⟨rfl, http_bearer_error_403 env.authorization e he, rfl, rfl, rfl⟩

/-- Witness for the amended C4 at a no-user token and at a missing header. -/
theorem C4_witness :
    ((∃ d, (process_audio envBadToken).response = Except.error ⟨401, d⟩) ∧
      (process_audio envBadToken).aiCalls = 0 ∧
      (process_audio envBadToken).insertAttempts = 0 ∧
      (process_audio envBadToken).inserts = []) ∧
    ((process_audio envNoHeader).response =
        Except.error ⟨403, "Not authenticated"⟩ ∧
      (⟨403, "Not authenticated"⟩ : HTTPError).status = 403 ∧
      (process_audio envNoHeader).aiCalls = 0 ∧
      (process_audio envNoHeader).insertAttempts = 0 ∧
      (process_audio envNoHeader).inserts = []) :=
  ⟨(C4_auth_failure_401_or_403 envBadToken).1 ⟨"tok-1", rfl⟩
      (fun _ hcon => AuthOutcome.noConfusion hcon),
    (C4_auth_failure_401_or_403 envNoHeader).2 ⟨403, "Not authenticated"⟩ rfl⟩

/-- C5: the top-level `except` clauses re-raise `HTTPException`s unchanged
and wrap any other exception into a 500 whose detail embeds the cause, and
every exception escaping the try body reaches the client exactly in its
normalized form. -/
theorem C5_error_normalization :
    (∀ e : HTTPError, normalize_exception (Exc.http e) = e) ∧
    (∀ p : PyError, normalize_exception (Exc.py p) =
      ⟨500, "An error occurred: " ++ p.detailAttr.getD p.message⟩) ∧
    (∀ (env : RequestEnv) (uid cred : String) (exc : Exc),
      http_bearer env.authorization = Except.ok cred →
      env.auth = AuthOutcome.user uid →
      (process_audio_try_body env uid).response = Except.error exc →
      (process_audio env).response = Except.error (normalize_exception exc)) := by
  refine ⟨fun e => rfl, fun p => rfl, ?_⟩
  intro env uid cred exc hb hauth herr
  have hres : (process_audio env).response =
      (process_audio_try_body env uid).response.mapError normalize_exception := by
    rw [process_audio_auth_user env uid cred hb hauth]
  rw [hres, herr]
  rfl

/-- Witness for C5 at a request whose transcription call raises `boom`. -/
theorem C5_witness :
    (process_audio envCallRaises).response =
      Except.error (normalize_exception (Exc.py ⟨none, "boom"⟩)) :=
  C5_error_normalization.2.2 envCallRaises "user-1" "tok-1"
    (Exc.py ⟨none, "boom"⟩) rfl rfl rfl

/-- C6 counterexample: a fully successful request whose summarization stage
extracts the empty string is answered 200 with `structured_summary = ""` and
persists one record, so the response's `structured_summary` is not a
non-empty string as the claim demands. -/
theorem C6_counterexample :
    (process_audio envEmptySummary).response = Except.ok "" ∧
    (process_audio envEmptySummary).inserts =
      [⟨"user-1", "hello world", "", none⟩] ∧
    ¬ ∃ s, (process_audio envEmptySummary).response = Except.ok s ∧ s ≠ "" := by
  refine ⟨rfl, by decide, ?_⟩
  rintro ⟨s, hs, hne⟩
  have h : (Except.ok "" : Except HTTPError String) = Except.ok s := hs
  exact hne (Except.ok.inj h).symm

/-- C6 (amended): for every request with a valid token whose transcript
passes the two-token check and whose summarization and insert succeed, the
response is 200 carrying exactly the extracted summary string (which the
code does not validate for non-emptiness), and exactly one record with the
authenticated user's id is persisted. -/
theorem C6_success_response_and_persistence (env : RequestEnv)
    (uid cred t s : String) (tr sr : GeminiResponse)
    (hb : http_bearer env.authorization = Except.ok cred)
    (hauth : env.auth = AuthOutcome.user uid)
    (htr : env.transcribeCall = CallResult.returned tr)
    (hts : extract_transcript tr = Except.ok t)
    (hlen : 2 ≤ (pySplitWhitespace t).length)
    (hsum : env.summarizeCall = CallResult.returned sr)
    (hss : extract_summary sr = Except.ok s)
    (hins : env.insertOutcome = Except.ok ()) :
    (process_audio env).response = Except.ok s ∧
    (process_audio env).inserts = [⟨uid, t, s, env.client_name⟩] ∧
    (process_audio env).insertAttempts = 1 := by
  rw [process_audio_auth_user env uid cred hb hauth,
    try_body_success env uid tr sr t s htr hts hlen hsum hss hins]
  exact ⟨rfl, rfl, rfl⟩

/-- Witness for the amended C6 at a fully successful concrete request. -/
theorem C6_witness :
    (process_audio envSuccess).response = Except.ok "CHIEF COMPLAINT: headache" ∧
    (process_audio envSuccess).inserts =
      [⟨"user-1", "hello there world", "CHIEF COMPLAINT: headache", some "Acme"⟩] ∧
    (process_audio envSuccess).insertAttempts = 1 :=
  C6_success_response_and_persistence envSuccess "user-1" "tok-1"
    "hello there world" "CHIEF COMPLAINT: headache" ⟨.ok "hello there world", []⟩
    ⟨.ok "CHIEF COMPLAINT: headache", []⟩ rfl rfl rfl rfl (by decide) rfl rfl rfl

/-- C7 counterexample: an upload with no declared content type and no
filename is tagged with the `mimetypes` table's entry for the substituted
default name `audio.webm` — `video/webm` on a stock CPython table — not the
generic binary fallback the claim asserts for uploads with no recognizable
filename extension. -/
theorem C7_counterexample :
    (process_audio envMimeNoFilename).audioPart = some ⟨"video/webm", [7]⟩ ∧
    (process_audio envMimeNoFilename).audioPart ≠
      some ⟨"application/octet-stream", [7]⟩ :=
  ⟨rfl, by decide⟩

/-- C7 (amended): the media type attached to the audio part sent to Gemini
is the declared content type when present (non-empty); otherwise the type
the `mimetypes` table infers from the filename, a missing or empty filename
being first replaced by the default name `audio.webm`; otherwise the
generic binary fallback `application/octet-stream`.  In particular the
generic fallback is reached for a non-empty filename the table does not
recognize, while a filename-less upload gets whatever the table yields for
`audio.webm`. -/
theorem C7_mime_resolution_order (env : RequestEnv) (uid cred : String)
    (hb : http_bearer env.authorization = Except.ok cred)
    (hauth : env.auth = AuthOutcome.user uid) :
    (∀ c, env.content_type = some c → c ≠ "" →
      (process_audio env).audioPart = some ⟨c, env.audio_data⟩) ∧
    (∀ f m, (env.content_type = none ∨ env.content_type = some "") →
      env.filename = some f → f ≠ "" → env.guess_type f = some m → m ≠ "" →
      (process_audio env).audioPart = some ⟨m, env.audio_data⟩) ∧
    (∀ f, (env.content_type = none ∨ env.content_type = some "") →
      env.filename = some f → f ≠ "" → env.guess_type f = none →
      (process_audio env).audioPart =
        some ⟨"application/octet-stream", env.audio_data⟩) ∧
    ((env.content_type = none ∨ env.content_type = some "") →
      (env.filename = none ∨ env.filename = some "") →
      (process_audio env).audioPart =
        some ⟨pyOr (env.guess_type "audio.webm") "application/octet-stream",
          env.audio_data⟩) := by
  refine ⟨?_, ?_, ?_, ?_⟩
  · intro c hc hne
    rw [process_audio_audioPart env uid cred hb hauth]
    simp [resolve_mime_type, hc, hne]
  · intro f m hct hf hfne hg hmne
    rw [process_audio_audioPart env uid cred hb hauth]
    rcases hct with hct | hct <;>
      simp [resolve_mime_type, guessed_mime_type, pyOr, hct, hf, hfne, hg, hmne]
  · intro f hct hf hfne hg
    rw [process_audio_audioPart env uid cred hb hauth]
    rcases hct with hct | hct <;>
      simp [resolve_mime_type, guessed_mime_type, pyOr, hct, hf, hfne, hg]
  · intro hct hfn
    rw [process_audio_audioPart env uid cred hb hauth]
    rcases hct with hct | hct <;> rcases hfn with hfn | hfn <;>
      simp [resolve_mime_type, guessed_mime_type, pyOr, hct, hfn]

/-- Witness for the amended C7 at four concrete uploads: declared type,
guessed type, generic binary fallback, and the defaulted `audio.webm`
guess. -/
theorem C7_witness :
    (process_audio envMimeDeclared).audioPart = some ⟨"audio/mpeg", [7]⟩ ∧
    (process_audio envMimeGuessed).audioPart = some ⟨"audio/mpeg", [7]⟩ ∧
    (process_audio envMimeFallback).audioPart =
      some ⟨"application/octet-stream", [7]⟩ ∧
    (process_audio envMimeNoFilename).audioPart = some ⟨"video/webm", [7]⟩ :=
  ⟨(C7_mime_resolution_order envMimeDeclared "user-1" "tok-1" rfl rfl).1
      "audio/mpeg" rfl (by decide),
    (C7_mime_resolution_order envMimeGuessed "user-1" "tok-1" rfl rfl).2.1
      "voice.mp3" "audio/mpeg" (Or.inl rfl) rfl (by decide) rfl (by decide),
    (C7_mime_resolution_order envMimeFallback "user-1" "tok-1" rfl rfl).2.2.1
      "voice.xyz" (Or.inl rfl) rfl (by decide) rfl,
    (C7_mime_resolution_order envMimeNoFilename "user-1" "tok-1" rfl rfl).2.2.2
      (Or.inl rfl) (Or.inl rfl)⟩

/-- C8: when the transcript fails the two-token validation, only the
transcription call is ever issued (the summarization call never happens)
and the 400 error is raised. -/
theorem C8_no_summarization_for_short_transcript (env : RequestEnv)
    (uid cred t : String) (tr : GeminiResponse)
    (hb : http_bearer env.authorization = Except.ok cred)
    (hauth : env.auth = AuthOutcome.user uid)
    (htr : env.transcribeCall = CallResult.returned tr)
    (hts : extract_transcript tr = Except.ok t)
    (hshort : t = "" ∨ (pySplitWhitespace t).length < 2) :
    (process_audio env).aiCalls = 1 ∧
    (process_audio env).response = Except.error ⟨400, silent_audio_detail⟩ := by
  rw [process_audio_auth_user env uid cred hb hauth,
    try_body_short env uid tr t htr hts hshort]
  exact ⟨rfl, rfl⟩

/-- Witness for C8 at a request transcribed as a single token. -/
theorem C8_witness :
    (process_audio envShortTranscript).aiCalls = 1 ∧
    (process_audio envShortTranscript).response =
      Except.error ⟨400, silent_audio_detail⟩ :=
  C8_no_summarization_for_short_transcript envShortTranscript "user-1" "tok-1"
    "hi" ⟨.ok "hi", []⟩ rfl rfl rfl rfl (Or.inr (by decide))

/-- C9: every authentication failure surfaces a 401 whose detail is of the
wrapped `Auth error: ...` form — in particular the internally raised
`Invalid auth token` exception is re-wrapped by the function's own generic
handler, so a bare `Invalid auth token` detail is never returned. -/
theorem C9_auth_error_wrapped (a : AuthOutcome) (e : HTTPError)
    (h : get_user_from_token a = Except.error e) :
    e.status = 401 ∧
    (∃ m, e.detail = "Auth error: " ++ m) ∧
    e.detail ≠ "Invalid auth token" ∧
    (a = AuthOutcome.noUser →
      e.detail = "Auth error: " ++ http_exception_str 401 "Invalid auth token") := by
  cases a with
  | user uid => exact absurd h (by simp [get_user_from_token])
  | noUser =>
    have he : e = ⟨401, "Auth error: " ++ http_exception_str 401 "Invalid auth token"⟩ := by
      simp only [get_user_from_token, Except.error.injEq] at h
      exact h.symm
    subst he
    exact ⟨rfl, ⟨http_exception_str 401 "Invalid auth token", rfl⟩,
      wrapped_ne_bare _, fun _ => rfl⟩
  | raised m =>
    have he : e = ⟨401, "Auth error: " ++ m⟩ := by
      simp only [get_user_from_token, Except.error.injEq] at h
      exact h.symm
    subst he
    exact ⟨rfl, ⟨m, rfl⟩, wrapped_ne_bare m,
      fun hcon => AuthOutcome.noConfusion hcon⟩

/-- Witness for C9 at the no-user outcome. -/
theorem C9_witness :
    (⟨401, "Auth error: " ++ http_exception_str 401 "Invalid auth token"⟩ :
      HTTPError).status = 401 ∧
    (∃ m, (⟨401, "Auth error: " ++ http_exception_str 401 "Invalid auth token"⟩ :
      HTTPError).detail = "Auth error: " ++ m) ∧
    (⟨401, "Auth error: " ++ http_exception_str 401 "Invalid auth token"⟩ :
      HTTPError).detail ≠ "Invalid auth token" ∧
    (AuthOutcome.noUser = AuthOutcome.noUser →
      (⟨401, "Auth error: " ++ http_exception_str 401 "Invalid auth token"⟩ :
        HTTPError).detail =
        "Auth error: " ++ http_exception_str 401 "Invalid auth token") :=
  C9_auth_error_wrapped AuthOutcome.noUser
    ⟨401, "Auth error: " ++ http_exception_str 401 "Invalid auth token"⟩ rfl

/-- C10: every successful request persists exactly one record holding the
four fields user_id, original_transcript, structured_summary and
client_name, with the unchanged transcript, the summary string returned in
the response body, and the submitted (possibly omitted) client-name form
value. -/
theorem C10_persisted_record (env : RequestEnv) (uid cred t s : String)
    (tr sr : GeminiResponse)
    (hb : http_bearer env.authorization = Except.ok cred)
    (hauth : env.auth = AuthOutcome.user uid)
    (htr : env.transcribeCall = CallResult.returned tr)
    (hts : extract_transcript tr = Except.ok t)
    (hlen : 2 ≤ (pySplitWhitespace t).length)
    (hsum : env.summarizeCall = CallResult.returned sr)
    (hss : extract_summary sr = Except.ok s)
    (hins : env.insertOutcome = Except.ok ()) :
    (process_audio env).inserts =
      [{ user_id := uid, original_transcript := t, structured_summary := s,
          client_name := env.client_name }] ∧
    (process_audio env).response = Except.ok s := by
  rw [process_audio_auth_user env uid cred hb hauth,
    try_body_success env uid tr sr t s htr hts hlen hsum hss hins]
  exact ⟨rfl, rfl⟩

/-- Witness for C10 at a fully successful concrete request with a client
name. -/
theorem C10_witness :
    (process_audio envSuccess).inserts =
      [{ user_id := "user-1", original_transcript := "hello there world",
          structured_summary := "CHIEF COMPLAINT: headache",
          client_name := some "Acme" }] ∧
    (process_audio envSuccess).response = Except.ok "CHIEF COMPLAINT: headache" :=
  C10_persisted_record envSuccess "user-1" "tok-1" "hello there world"
    "CHIEF COMPLAINT: headache" ⟨.ok "hello there world", []⟩
    ⟨.ok "CHIEF COMPLAINT: headache", []⟩ rfl rfl rfl rfl (by decide) rfl rfl rfl

end JanScribe
